import Mathlib

/-!
# Verification of the forms-backend offline sync core

A shallow embedding of the submission-synchronization and dual-write engine
of the forms backend: the transactional unit-of-work helper
(`src/database/transaction.js`), the batch sync engine and sync-status query
(`src/controllers/syncController.js`), the file/multipart upload registration
paths (`src/controllers/fileController.js`), and the single-item
`createSubmission` endpoint (`controllers/submissionController.js`).

Relational tables are lists of rows; the object store is a list of stored
(bucket, key) blobs plus open multipart sessions; MySQL transaction rollback
is snapshot restoration of the relational state (the object store is not
rolled back, matching the code, where `s3Service.putObject` happens inside
the `try` but has no compensating delete).  Infrastructure failures are
injected through explicit fault oracles so that error paths are part of the
model rather than assumed away.
-/

namespace FormsBackend

/-! ## Transactional Unit-of-Work (`src/database/transaction.js`)

`executeTransaction(connection, callback)` is

```js
try {
    await connection.beginTransaction();
    const result = await callback(connection);
    await connection.commit();
    return result;
} catch (error) {
    logger.error('Transaction error:', error);
    await connection.rollback();
    throw error;
} finally {
    connection.release();
}
```

We model the connection by which of its infrastructure operations fail, the
callback by its outcome, and record the sequence of operations performed on
the connection.  JS semantics embedded here: a failure inside the `catch`
block (rollback throwing) replaces the propagated error, and the `finally`
block runs `connection.release()` on every exit path.
-/

inductive ConnEvent where
  | beginTx
  | commit
  | rollback
  | release
deriving DecidableEq, Repr

structure ConnBehavior where
  beginFails : Bool
  commitFails : Bool
  rollbackFails : Bool
deriving DecidableEq, Repr

/-- Outcome of the caller-supplied callback: returns a value or raises. -/
inductive CbOutcome (α : Type) where
  | ok (a : α)
  | err (e : String)
deriving DecidableEq, Repr

/-- The `catch` block followed by the `finally` block: attempt a rollback
(which may itself throw, replacing the propagated error, exactly as in JS),
then release the connection. -/
def txCatch {α : Type} (conn : ConnBehavior) (e : String) (evs : List ConnEvent) :
    Except String α × List ConnEvent :=
  if conn.rollbackFails then
    (Except.error "rollback failed", evs ++ [ConnEvent.rollback, ConnEvent.release])
  else
    (Except.error e, evs ++ [ConnEvent.rollback, ConnEvent.release])

/-- `executeTransaction` from `src/database/transaction.js`, as a function of
the connection's infrastructure behavior and the callback's outcome.  Returns
the value propagated to the caller and the ordered list of connection
operations attempted. -/
def executeTransaction {α : Type} (conn : ConnBehavior) (cb : CbOutcome α) :
    Except String α × List ConnEvent :=
  if conn.beginFails then
    txCatch conn "begin failed" [ConnEvent.beginTx]
  else
    match cb with
    | CbOutcome.err e => txCatch conn e [ConnEvent.beginTx]
    | CbOutcome.ok a =>
      if conn.commitFails then
        txCatch conn "commit failed" [ConnEvent.beginTx, ConnEvent.commit]
      else
        (Except.ok a, [ConnEvent.beginTx, ConnEvent.commit, ConnEvent.release])

/-- C3: Unit-of-Work contract for `executeTransaction`: when the callback
completes and the infrastructure cooperates, the transaction is committed
(operations are exactly begin, commit, release) and the callback's value is
returned; when the callback raises, the transaction is rolled back and the
same failure propagates to the caller; and on every exit path — success,
callback failure, or infrastructure failure during begin/commit/rollback —
the connection is released exactly once. -/
theorem executeTransaction_unit_of_work {α : Type} (conn : ConnBehavior) (cb : CbOutcome α) :
    ((executeTransaction conn cb).2.count ConnEvent.release = 1)
    ∧ (∀ a : α, cb = CbOutcome.ok a → conn.beginFails = false → conn.commitFails = false →
        executeTransaction conn cb
          = (Except.ok a, [ConnEvent.beginTx, ConnEvent.commit, ConnEvent.release]))
    ∧ (∀ e : String, cb = CbOutcome.err e → conn.beginFails = false →
        conn.rollbackFails = false →
        executeTransaction conn cb
          = (Except.error e, [ConnEvent.beginTx, ConnEvent.rollback, ConnEvent.release])) := by
  obtain ⟨b, c, r⟩ := conn
  refine ⟨?_, ?_, ?_⟩
  · cases b <;> cases c <;> cases r <;> cases cb <;>
      simp [executeTransaction, txCatch, List.count_append]
  · rintro a rfl hb hc
    simp only at hb hc
    subst hb; subst hc
    simp [executeTransaction]
  · rintro e rfl hb hr
    simp only at hb hr
    subst hb; subst hr
    simp [executeTransaction, txCatch]

/-- Witness for C3 at a concrete connection and callback. -/
theorem executeTransaction_unit_of_work_witness :
    executeTransaction ⟨false, false, false⟩ (CbOutcome.ok 7)
      = (Except.ok 7, [ConnEvent.beginTx, ConnEvent.commit, ConnEvent.release]) :=
  (executeTransaction_unit_of_work ⟨false, false, false⟩ (CbOutcome.ok 7)).2.1 7 rfl rfl rfl

/-! ## Data model

Rows of the relational tables touched by the sync core.  Timestamps are clock
ticks (`Nat`); `SHA2(key, 256)` is modelled by an injective function on keys
(the identity), which preserves exactly what the code relies on: equal keys
hash equal, distinct keys hash distinct. -/

structure SubmissionRow where
  id : Nat
  uuid : String
  formTemplateId : Nat
  formTemplateVersion : Nat
  submittedBy : Nat
  status : String
  submittedAt : Option Nat
  dataS3ObjectId : Nat
deriving DecidableEq, Repr

structure S3ObjectRow where
  id : Nat
  bucketName : String
  objectKey : String
  objectKeyHash : String
  contentType : String
  sizeBytes : Nat
  objectVersionId : Option String
  etag : Option String
  createdBy : Nat
deriving DecidableEq, Repr

structure FileRow where
  formSubmissionId : Nat
  fieldName : String
  fileS3ObjectId : Nat
  fileName : String
  fileDescription : Option String
deriving DecidableEq, Repr

structure LogRow where
  userId : Nat
  activityType : String
  entityType : String
  entityId : Nat
deriving DecidableEq, Repr

structure SyncRow where
  id : Nat
  userId : Nat
  deviceId : String
  entityType : String
  operation : String
  localId : String
  serverId : Option Nat
  status : String
  errorMessage : Option String
  retryCount : Nat
  createdAt : Nat
  updatedAt : Nat
deriving DecidableEq, Repr

structure UserRow where
  id : Nat
  deviceId : Option String
  lastSyncAt : Option Nat
deriving DecidableEq, Repr

/-- The relational database: read-only reference tables (`form_templates` as
(id, project_id), `form_template_versions` as (form_template_id, version),
`project_users` as (project_id, user_id)), the tables the core writes, and the
auto-increment counters of the written tables. -/
structure DB where
  formTemplates : List (Nat × Nat)
  formTemplateVersions : List (Nat × Nat)
  projectUsers : List (Nat × Nat)
  users : List UserRow
  submissions : List SubmissionRow
  s3Objects : List S3ObjectRow
  submissionFiles : List FileRow
  activityLogs : List LogRow
  syncQueue : List SyncRow
  nextSubmissionId : Nat
  nextS3ObjectId : Nat
  nextSyncId : Nat
deriving DecidableEq, Repr

/-- One open multipart upload session at the store: target location, the
store's opaque upload handle, and the part checksums the store expects at
completion (what was actually uploaded to the part URLs). -/
structure UploadSession where
  bucket : String
  key : String
  uploadId : String
  expectedParts : List String
deriving DecidableEq, Repr

/-- The object store: stored blobs by (bucket, key), and open multipart
sessions.  Relational rollback never touches this state. -/
structure S3State where
  objects : List (String × String)
  uploads : List UploadSession
deriving DecidableEq, Repr

structure SyncState where
  db : DB
  s3 : S3State
deriving DecidableEq, Repr

/-- `config.s3.submissionsBucket`. -/
def submissionsBucket : String := "submissions-bucket"

/-- Injective model of `SHA2(key, 256)`. -/
def sha2 (key : String) : String := key

/-- The payload key derived from (templateId, clientId):
`submissions/${formTemplateId}/${uuid}.json`. -/
def submissionKey (formTemplateId : Nat) (uuid : String) : String :=
  "submissions/" ++ toString formTemplateId ++ "/" ++ uuid ++ ".json"

/-- `s3Service.putObject`: store (overwrite) a blob at (bucket, key). -/
def putObject (s3 : S3State) (bucket key : String) : S3State :=
  if (bucket, key) ∈ s3.objects then s3
  else { s3 with objects := s3.objects ++ [(bucket, key)] }

/-- `SELECT id FROM form_submissions WHERE uuid = ?` (first match). -/
def findSubmissionByUuid : List SubmissionRow → String → Option SubmissionRow
  | [], _ => none
  | r :: rs, u => if r.uuid = u then some r else findSubmissionByUuid rs u

/-- `SELECT id, project_id FROM form_templates WHERE id = ?` (project id of
the template, when it exists). -/
def templateLookup : List (Nat × Nat) → Nat → Option Nat
  | [], _ => none
  | t :: ts, i => if t.1 = i then some t.2 else templateLookup ts i

/-- `SELECT version FROM form_template_versions WHERE form_template_id = ?
AND version = ?` (nonempty result). -/
def versionExists : List (Nat × Nat) → Nat → Nat → Bool
  | [], _, _ => false
  | v :: vs, t, ver => if v.1 = t ∧ v.2 = ver then true else versionExists vs t ver

/-- Does an `s3_objects` row with this (bucket_name, object_key_hash) already
exist?  This is the table's unique key. -/
def s3KeyRegistered : List S3ObjectRow → String → String → Bool
  | [], _, _ => false
  | r :: rs, b, h => if r.bucketName = b ∧ r.objectKeyHash = h then true
                     else s3KeyRegistered rs b h

/-- First `s3_objects` row with this (bucket_name, object_key_hash). -/
def findS3ObjectByKey : List S3ObjectRow → String → String → Option S3ObjectRow
  | [], _, _ => none
  | r :: rs, b, h => if r.bucketName = b ∧ r.objectKeyHash = h then some r
                     else findS3ObjectByKey rs b h

/-! ## Submission Ingestion Engine (`syncSubmissions`, syncController.js)

One batch item, its result entry, and the per-item transaction.  Each
infrastructure operation inside the transaction can be made to fail by the
environment's fault oracle; MySQL duplicate-key errors on the plain `INSERT`
statements are modelled explicitly against each table's unique key. -/

/-- A file reference carried by a batch item; entries without a resolved
`s3ObjectId` are silently dropped by the engine. -/
structure FileRef where
  s3ObjectId : Option Nat
  fieldName : String
  fileName : String
  description : Option String
deriving DecidableEq, Repr

/-- One item of a sync batch (`submissions[i]` of the request body).
`dataSize` stands for `Buffer.byteLength(JSON.stringify(submission.data))`. -/
structure SubItem where
  uuid : String
  formTemplateId : Nat
  formTemplateVersion : Nat
  dataSize : Nat
  files : List FileRef
  status : String
deriving DecidableEq, Repr

/-- One entry of the response's `results` array. -/
structure ItemResult where
  uuid : String
  status : String
  message : String
  serverId : Option Nat
deriving DecidableEq, Repr

/-- The operations attempted inside one item's transaction, in source order;
the fault oracle names the one (if any) at which the infrastructure throws. -/
inductive TxStep where
  | s3Put
  | s3ObjectInsert
  | submissionInsert
  | fileInsert
  | logInsert
  | queueInsert
  | commitTx
deriving DecidableEq, Repr

/-- The ambient request context of a batch sync call: authenticated user,
device identifier, clock, and the infrastructure fault oracle. -/
structure SyncEnv where
  userId : Nat
  deviceId : String
  now : Nat
  fault : SubItem → Option TxStep

/-- Outcome of one item's transaction: committed (new relational state, store
state, and the server-assigned submission id), or rolled back (error message
and the store state as of the failure — the store is not rolled back). -/
inductive TxOutcome where
  | ok (db : DB) (s3 : S3State) (serverId : Nat)
  | fail (msg : String) (s3 : S3State)
deriving Repr

/-- File-attachment rows inserted for a submission: one row per file with a
resolved `s3ObjectId`, in order; the rest are skipped. -/
def fileRowsFor (sid : Nat) (files : List FileRef) : List FileRow :=
  files.filterMap (fun f =>
    f.s3ObjectId.map (fun oid => ⟨sid, f.fieldName, oid, f.fileName, f.description⟩))

/-- The body of one item's transaction, lines 100–224 of syncController.js:
S3 put, `s3_objects` insert, `form_submissions` insert, attachment inserts,
`activity_logs` insert, completed `sync_queue` insert (inside the
transaction), commit.  Any failure yields `fail` with the relational writes
discarded by the caller's rollback; the store write survives. -/
def runItemTx (env : SyncEnv) (item : SubItem) (db : DB) (s3 : S3State) : TxOutcome :=
  if env.fault item = some TxStep.s3Put then
    TxOutcome.fail "S3 putObject failed" s3
  else
    let objectKey := submissionKey item.formTemplateId item.uuid
    let s3' := putObject s3 submissionsBucket objectKey
    if env.fault item = some TxStep.s3ObjectInsert then
      TxOutcome.fail "s3_objects insert failed" s3'
    else if s3KeyRegistered db.s3Objects submissionsBucket (sha2 objectKey) then
      TxOutcome.fail "ER_DUP_ENTRY s3_objects bucket_name, object_key_hash" s3'
    else
      let dataS3ObjectId := db.nextS3ObjectId
      let db1 : DB := { db with
        s3Objects := db.s3Objects ++ [⟨dataS3ObjectId, submissionsBucket, objectKey,
          sha2 objectKey, "application/json", item.dataSize, none, none, env.userId⟩],
        nextS3ObjectId := dataS3ObjectId + 1 }
      if env.fault item = some TxStep.submissionInsert then
        TxOutcome.fail "form_submissions insert failed" s3'
      else if (findSubmissionByUuid db1.submissions item.uuid).isSome then
        TxOutcome.fail "ER_DUP_ENTRY form_submissions uuid" s3'
      else
        let submittedAt := if item.status ≠ "draft" then some env.now else none
        let submissionId := db1.nextSubmissionId
        let db2 : DB := { db1 with
          submissions := db1.submissions ++ [⟨submissionId, item.uuid,
            item.formTemplateId, item.formTemplateVersion, env.userId, item.status,
            submittedAt, dataS3ObjectId⟩],
          nextSubmissionId := submissionId + 1 }
        if env.fault item = some TxStep.fileInsert then
          TxOutcome.fail "form_submission_files insert failed" s3'
        else
          let db3 : DB := { db2 with
            submissionFiles := db2.submissionFiles ++ fileRowsFor submissionId item.files }
          if env.fault item = some TxStep.logInsert then
            TxOutcome.fail "activity_logs insert failed" s3'
          else
            let db4 : DB := { db3 with
              activityLogs := db3.activityLogs ++
                [⟨env.userId, "sync_submission", "form_submissions", submissionId⟩] }
            if env.fault item = some TxStep.queueInsert then
              TxOutcome.fail "sync_queue insert failed" s3'
            else
              let db5 : DB := { db4 with
                syncQueue := db4.syncQueue ++ [⟨db4.nextSyncId, env.userId, env.deviceId,
                  "form_submissions", "create", item.uuid, some submissionId, "completed",
                  none, 0, env.now, env.now⟩],
                nextSyncId := db4.nextSyncId + 1 }
              if env.fault item = some TxStep.commitTx then
                TxOutcome.fail "commit failed" s3'
              else
                TxOutcome.ok db5 s3' submissionId

/-- The `failed` sync_queue row inserted through the pool (`db.query`), i.e.
outside the rolled-back transaction, after an item's transaction fails. -/
def failedQueueRow (env : SyncEnv) (db : DB) (item : SubItem) (msg : String) : SyncRow :=
  ⟨db.nextSyncId, env.userId, env.deviceId, "form_submissions", "create", item.uuid,
    none, "failed", some msg, 0, env.now, env.now⟩

/-- Processing of one batch item, lines 46–281 of syncController.js:
duplicate check by uuid (→ `skipped` with the existing server id), template
and version referential checks (→ `error`, no transaction opened), then the
per-item transaction; on transaction failure the relational writes are rolled
back to the pre-transaction snapshot, the store writes stand, and a `failed`
sync_queue row is inserted through the pool. -/
def processOne (env : SyncEnv) (st : SyncState) (item : SubItem) : SyncState × ItemResult :=
  match findSubmissionByUuid st.db.submissions item.uuid with
  | some existing =>
      (st, ⟨item.uuid, "skipped", "Submission with this UUID already exists",
        some existing.id⟩)
  | none =>
      match templateLookup st.db.formTemplates item.formTemplateId with
      | none => (st, ⟨item.uuid, "error", "Form template not found", none⟩)
      | some _ =>
          if versionExists st.db.formTemplateVersions item.formTemplateId
              item.formTemplateVersion then
            match runItemTx env item st.db st.s3 with
            | TxOutcome.ok db' s3' sid =>
                (⟨db', s3'⟩, ⟨item.uuid, "success", "Submission synced successfully",
                  some sid⟩)
            | TxOutcome.fail msg s3' =>
                let db' : DB := { st.db with
                  syncQueue := st.db.syncQueue ++ [failedQueueRow env st.db item msg],
                  nextSyncId := st.db.nextSyncId + 1 }
                (⟨db', s3'⟩, ⟨item.uuid, "error", "Error: " ++ msg, none⟩)
          else
            (st, ⟨item.uuid, "error", "Form template version not found", none⟩)

/-- Sequential left-to-right processing of the batch, threading the state and
counting `success` and `error` results as the loop does. -/
def processBatch (env : SyncEnv) (st : SyncState) :
    List SubItem → SyncState × List ItemResult × Nat × Nat
  | [] => (st, [], 0, 0)
  | item :: rest =>
      let p := processOne env st item
      let q := processBatch env p.1 rest
      (q.1, p.2 :: q.2.1,
        (if p.2.status = "success" then q.2.2.1 + 1 else q.2.2.1),
        (if p.2.status = "error" then q.2.2.2 + 1 else q.2.2.2))

/-- The response body's `data` of a batch sync call. -/
structure BatchResponse where
  synced : Nat
  errors : Nat
  results : List ItemResult
deriving DecidableEq, Repr

/-- `UPDATE users SET device_id = ?, last_sync_at = NOW() WHERE id = ?`. -/
def updateUserSync (users : List UserRow) (userId : Nat) (deviceId : String)
    (now : Nat) : List UserRow :=
  users.map (fun u =>
    if u.id = userId then { u with deviceId := some deviceId, lastSyncAt := some now }
    else u)

/-- `syncSubmissions`: the whole batch endpoint (an empty batch returns
immediately; otherwise the caller's device id and last-sync time are recorded
on the users table and the items are processed in input order). -/
def syncSubmissions (env : SyncEnv) (st : SyncState) (items : List SubItem) :
    SyncState × BatchResponse :=
  match items with
  | [] => (st, ⟨0, 0, []⟩)
  | _ :: _ =>
      let st0 : SyncState := { st with
        db := { st.db with
          users := updateUserSync st.db.users env.userId env.deviceId env.now } }
      let r := processBatch env st0 items
      (r.1, ⟨r.2.2.1, r.2.2.2, r.2.1⟩)

/-- The submission row committed for a batch item (step c of §4.1). -/
def subRowOf (env : SyncEnv) (item : SubItem) (db : DB) : SubmissionRow :=
  ⟨db.nextSubmissionId, item.uuid, item.formTemplateId, item.formTemplateVersion,
    env.userId, item.status, (if item.status ≠ "draft" then some env.now else none),
    db.nextS3ObjectId⟩

/-- The `completed` sync_queue row committed for a batch item (step f). -/
def completedQueueRow (env : SyncEnv) (item : SubItem) (db : DB) : SyncRow :=
  ⟨db.nextSyncId, env.userId, env.deviceId, "form_submissions", "create", item.uuid,
    some db.nextSubmissionId, "completed", none, 0, env.now, env.now⟩

/-- The relational state after a batch item's transaction commits: the net
effect of steps b–f of the transaction body in `runItemTx`. -/
def commitDB (env : SyncEnv) (item : SubItem) (db : DB) : DB :=
  { db with
    s3Objects := db.s3Objects ++ [⟨db.nextS3ObjectId, submissionsBucket,
      submissionKey item.formTemplateId item.uuid,
      sha2 (submissionKey item.formTemplateId item.uuid), "application/json",
      item.dataSize, none, none, env.userId⟩],
    nextS3ObjectId := db.nextS3ObjectId + 1,
    submissions := db.submissions ++ [subRowOf env item db],
    nextSubmissionId := db.nextSubmissionId + 1,
    submissionFiles := db.submissionFiles ++ fileRowsFor db.nextSubmissionId item.files,
    activityLogs := db.activityLogs ++
      [⟨env.userId, "sync_submission", "form_submissions", db.nextSubmissionId⟩],
    syncQueue := db.syncQueue ++ [completedQueueRow env item db],
    nextSyncId := db.nextSyncId + 1 }

/-! ## Single-item `createSubmission` (controllers/submissionController.js)

The endpoint validates the template, the (template, version) pair and the
caller's project access, then evaluates
`executeTransaction(db, async (connection) => { ... })`.
`controllers/submissionController.js` requires only the connection module,
the S3 service, `AppError`, the logger, the config and `uuid` — it never
requires `executeTransaction` from `src/database/transaction.js`, so in JS
the callee lookup raises `ReferenceError: executeTransaction is not defined`
before any argument is evaluated (and even under a resolved import the first
argument is the pool module `db`, which exposes only
`query/testConnection/end/getConnection`, not
`beginTransaction/commit/rollback/release`).  The outer `catch` forwards the
raised error to `next`, so no store write and no relational write happens. -/

structure CreateEnv where
  userId : Nat
  permissions : List String
  now : Nat
deriving DecidableEq, Repr

structure CreateReq where
  uuid : String
  formTemplateId : Nat
  formTemplateVersion : Nat
  dataSize : Nat
  files : List FileRef
  status : String
  isOfflineSubmission : Bool
deriving DecidableEq, Repr

inductive CreateOutcome where
  | appError (msg : String) (code : Nat)
  | runtimeError (msg : String)
  | created (serverId : Nat) (uuid : String) (status : String) (submittedAt : Option Nat)
deriving DecidableEq, Repr

def createSubmission (env : CreateEnv) (st : SyncState) (req : CreateReq) :
    SyncState × CreateOutcome :=
  match templateLookup st.db.formTemplates req.formTemplateId with
  | none => (st, CreateOutcome.appError "Form template not found" 404)
  | some projectId =>
      if versionExists st.db.formTemplateVersions req.formTemplateId
          req.formTemplateVersion then
        if "create_project" ∈ env.permissions ∨ (projectId, env.userId) ∈ st.db.projectUsers
        then
          (st, CreateOutcome.runtimeError "executeTransaction is not defined")
        else (st, CreateOutcome.appError "Access denied" 403)
      else (st, CreateOutcome.appError "Form template version not found" 404)

/-! ## File-upload registration and the multipart coordinator
(`src/controllers/fileController.js`) -/

/-- The `INSERT ... ON DUPLICATE KEY UPDATE content_type, size_bytes,
created_by` statement of `completeFileUpload`, followed by the id recovery
(`insertId` for a fresh row, `SELECT id ... WHERE bucket_name = ? AND
object_key_hash = ?` for a duplicate).  Returns the new table and the
object record's id. -/
def upsertS3ObjectBasic (db : DB) (userId : Nat) (bucket key hash ctype : String)
    (size : Nat) : DB × Nat :=
  match findS3ObjectByKey db.s3Objects bucket hash with
  | some r =>
      ({ db with s3Objects := db.s3Objects.map (fun q =>
          if q.bucketName = bucket ∧ q.objectKeyHash = hash then
            { q with contentType := ctype, sizeBytes := size, createdBy := userId }
          else q) }, r.id)
  | none =>
      ({ db with
          s3Objects := db.s3Objects ++
            [⟨db.nextS3ObjectId, bucket, key, hash, ctype, size, none, none, userId⟩],
          nextS3ObjectId := db.nextS3ObjectId + 1 }, db.nextS3ObjectId)

/-- The `completeMultipartUpload` variant of the upsert, which additionally
updates `object_version_id` and `etag`. -/
def upsertS3ObjectVersioned (db : DB) (userId : Nat) (bucket key hash ctype : String)
    (size : Nat) (versionId etag : Option String) : DB × Nat :=
  match findS3ObjectByKey db.s3Objects bucket hash with
  | some r =>
      ({ db with s3Objects := db.s3Objects.map (fun q =>
          if q.bucketName = bucket ∧ q.objectKeyHash = hash then
            { q with contentType := ctype, sizeBytes := size, objectVersionId := versionId, etag := etag, createdBy := userId }
          else q) }, r.id)
  | none =>
      ({ db with
          s3Objects := db.s3Objects ++
            [⟨db.nextS3ObjectId, bucket, key, hash, ctype, size, versionId, etag, userId⟩],
          nextS3ObjectId := db.nextS3ObjectId + 1 }, db.nextS3ObjectId)

structure CompleteFileReq where
  bucket : String
  objectKey : String
  contentType : String
  fileName : String
  fileSize : Nat
deriving DecidableEq, Repr

/-- `completeFileUpload`: verify the blob exists at the store, then upsert
the Object Record and answer with its id (the generated download URL is
outside the model). -/
def completeFileUpload (userId : Nat) (db : DB) (s3 : S3State) (req : CompleteFileReq) :
    DB × Except (String × Nat) Nat :=
  if req.objectKey = "" ∨ req.bucket = "" then
    (db, Except.error ("Bucket and object key are required", 400))
  else if (req.bucket, req.objectKey) ∈ s3.objects then
    let u := upsertS3ObjectBasic db userId req.bucket req.objectKey (sha2 req.objectKey)
      req.contentType req.fileSize
    (u.1, Except.ok u.2)
  else
    (db, Except.error ("File not found in S3", 404))

/-- Does a session coordinate (bucket, key, upload handle) match? -/
def sessionMatches (v : UploadSession) (b k uid : String) : Bool :=
  v.bucket = b ∧ v.key = k ∧ v.uploadId = uid

/-- Store-side lookup of an open multipart session by its handle. -/
def findUpload : List UploadSession → String → String → String → Option UploadSession
  | [], _, _, _ => none
  | u :: us, b, k, uid =>
      if sessionMatches u b k uid then some u
      else findUpload us b k uid

/-- `s3Service.completeMultipartUpload`: the store assembles the parts.  It
rejects an unknown handle (`NoSuchUpload`) and part checksums that do not
match what was uploaded (`InvalidPart`); on success the assembled object is
stored, the session is closed, and an etag is returned. -/
def s3CompleteMultipart (s3 : S3State) (bucket key uploadId : String)
    (parts : List String) : Except String (S3State × String) :=
  match findUpload s3.uploads bucket key uploadId with
  | none => Except.error "NoSuchUpload"
  | some u =>
      if u.expectedParts = parts then
        Except.ok
          ({ objects := if (bucket, key) ∈ s3.objects then s3.objects
                        else s3.objects ++ [(bucket, key)],
             uploads := s3.uploads.filter (fun v => !sessionMatches v bucket key uploadId) },
           "etag-" ++ uploadId)
      else Except.error "InvalidPart"

/-- `s3Service.abortMultipartUpload`: the store discards the parts and closes
the session. -/
def s3AbortMultipart (s3 : S3State) (bucket key uploadId : String) : S3State :=
  { s3 with uploads := s3.uploads.filter (fun v => !sessionMatches v bucket key uploadId) }

structure MultipartCompleteReq where
  bucket : String
  key : String
  uploadId : String
  parts : List String
  contentType : String
  fileName : String
  fileSize : Nat
deriving DecidableEq, Repr

/-- `completeMultipartUpload` (fileController.js lines 251–329): parameter
check, store-side assembly, then the versioned Object Record upsert; any
store rejection propagates as an error with the tables untouched. -/
def completeMultipartUpload (userId : Nat) (db : DB) (s3 : S3State)
    (req : MultipartCompleteReq) : (DB × S3State) × Except (String × Nat) Nat :=
  if req.bucket = "" ∨ req.key = "" ∨ req.uploadId = "" ∨ req.parts = [] then
    ((db, s3), Except.error ("Missing required parameters", 400))
  else
    match s3CompleteMultipart s3 req.bucket req.key req.uploadId req.parts with
    | Except.error e => ((db, s3), Except.error (e, 500))
    | Except.ok (s3', etag) =>
        let u := upsertS3ObjectVersioned db userId req.bucket req.key (sha2 req.key)
          req.contentType req.fileSize none (some etag)
        ((u.1, s3'), Except.ok u.2)

/-- `abortMultipartUpload` (fileController.js lines 337–355): parameter
check, then the store releases the parts; the relational state is never
touched. -/
def abortMultipartUpload (db : DB) (s3 : S3State) (bucket key uploadId : String) :
    (DB × S3State) × Except (String × Nat) Unit :=
  if bucket = "" ∨ key = "" ∨ uploadId = "" then
    ((db, s3), Except.error ("Missing required parameters", 400))
  else
    ((db, s3AbortMultipart s3 bucket key uploadId), Except.ok ())

/-! ## `getSyncStatus` (syncController.js lines 304–352) -/

/-- Descending insertion by a numeric key; equal keys keep their relative
order, modelling the stable `ORDER BY ... DESC` of the row set. -/
def insertDesc {α : Type} (key : α → Nat) (x : α) : List α → List α
  | [] => [x]
  | y :: ys => if key y < key x then x :: y :: ys else y :: insertDesc key x ys

def sortDesc {α : Type} (key : α → Nat) : List α → List α
  | [] => []
  | x :: xs => insertDesc key x (sortDesc key xs)

/-- `SELECT last_sync_at FROM users WHERE id = ? AND device_id = ?`. -/
def findUserDevice : List UserRow → Nat → String → Option UserRow
  | [], _, _ => none
  | u :: us, i, d =>
      if u.id = i ∧ u.deviceId = some d then some u else findUserDevice us i d

structure SyncStatusResponse where
  lastSync : Option Nat
  pendingCount : Nat
  pendingItems : List SyncRow
  completedItems : List SyncRow
deriving DecidableEq, Repr

/-- Seconds in the `INTERVAL 24 HOUR` window of the completed-items query. -/
def dayWindow : Nat := 86400

/-- `getSyncStatus`: the user's last sync time, every `pending` or `failed`
sync_queue row of (user, device) ordered by `created_at DESC` with no limit,
and the `completed` rows of the trailing 24-hour window ordered by
`updated_at DESC` limited to 50. -/
def getSyncStatus (db : DB) (userId : Nat) (deviceId : String) (now : Nat) :
    SyncStatusResponse :=
  let pending := sortDesc SyncRow.createdAt (db.syncQueue.filter (fun r =>
    decide (r.userId = userId ∧ r.deviceId = deviceId ∧
      (r.status = "pending" ∨ r.status = "failed"))))
  let completed := (sortDesc SyncRow.updatedAt (db.syncQueue.filter (fun r =>
    decide (r.userId = userId ∧ r.deviceId = deviceId ∧ r.status = "completed" ∧
      now - dayWindow ≤ r.updatedAt)))).take 50
  { lastSync := (findUserDevice db.users userId deviceId).bind UserRow.lastSyncAt,
    pendingCount := pending.length,
    pendingItems := pending,
    completedItems := completed }

/-! ## Concrete instances used by witnesses and counterexamples -/

/-- Fault-free request context: user 9, device "dev", time 100. -/
def env0 : SyncEnv := ⟨9, "dev", 100, fun _ => none⟩

/-- Same context with the infrastructure failing every item's commit. -/
def envCommitFault : SyncEnv := ⟨9, "dev", 100, fun _ => some TxStep.commitTx⟩

/-- Same context with the infrastructure failing every item's audit-log
insert (the forced failure of the spec's atomicity test). -/
def envLogFault : SyncEnv := ⟨9, "dev", 100, fun _ => some TxStep.logInsert⟩

/-- A database holding form template 5 (project 1) with version 1 and user
9, otherwise empty. -/
def db0 : DB := ⟨[(5, 1)], [(5, 1)], [], [⟨9, none, none⟩], [], [], [], [], [], 1, 1, 1⟩

def st0 : SyncState := ⟨db0, ⟨[], []⟩⟩

def itemA : SubItem := ⟨"a1", 5, 1, 10, [], "submitted"⟩

def itemBadVersion : SubItem := ⟨"a2", 5, 2, 10, [], "submitted"⟩

def itemDraft : SubItem := ⟨"a3", 5, 1, 10, [], "draft"⟩

/-- An Object Record already registered (by the file-upload path) at exactly
the payload key the ingestion engine derives for `itemA`. -/
def preRegisteredRow : S3ObjectRow :=
  ⟨7, submissionsBucket, submissionKey 5 "a1", sha2 (submissionKey 5 "a1"),
    "application/json", 3, none, none, 4⟩

def dbPre : DB := { db0 with s3Objects := [preRegisteredRow], nextS3ObjectId := 8 }

def stPre : SyncState := ⟨dbPre, ⟨[], []⟩⟩

def envCreate : CreateEnv := ⟨9, ["create_project"], 100⟩

/-- A fully valid creation request: template 5 version 1 exist in `db0` and
the caller holds `create_project`. -/
def reqCreate : CreateReq := ⟨"c1", 5, 1, 10, [], "submitted", false⟩

/-- An open multipart session whose uploaded part checksums are p1, p2. -/
def session1 : UploadSession := ⟨"bkt", "k1", "up1", ["p1", "p2"]⟩

def s3Upload : S3State := ⟨[], [session1]⟩

def mreqGood : MultipartCompleteReq := ⟨"bkt", "k1", "up1", ["p1", "p2"], "text/csv", "f.csv", 99⟩

def mreqBadParts : MultipartCompleteReq := ⟨"bkt", "k1", "up1", ["p1", "zz"], "text/csv", "f.csv", 99⟩

/-- An Object Record ledger already holding ("bkt", "key0"), and the store
holding that blob: the re-registration scenario of `completeFileUpload`. -/
def dbFile : DB :=
  { db0 with
    s3Objects := [⟨3, "bkt", "key0", sha2 "key0", "image/png", 7, none, none, 2⟩],
    nextS3ObjectId := 4 }

def s3File : S3State := ⟨[("bkt", "key0")], []⟩

def fileReqDup : CompleteFileReq := ⟨"bkt", "key0", "text/csv", "f.csv", 42⟩

/-- A sync_queue row of user 9 / device "dev" with the given id, status and
timestamp. -/
def qRow (i : Nat) (stt : String) (t : Nat) : SyncRow :=
  ⟨i, 9, "dev", "form_submissions", "create", "u" ++ toString i, none, stt, none, 0, t, t⟩

def dbQueue : DB :=
  { db0 with syncQueue :=
      [qRow 1 "pending" 10, qRow 2 "failed" 30, qRow 3 "completed" 20, qRow 4 "pending" 20] }

/-! ## Helper lemmas about the ingestion engine -/

/-- When no infrastructure fault is injected and neither unique key is
already taken, the per-item transaction commits and its net effect is
`commitDB`. -/
theorem runItemTx_eq_ok (env : SyncEnv) (item : SubItem) (db : DB) (s3 : S3State)
    (hf : env.fault item = none)
    (hk : s3KeyRegistered db.s3Objects submissionsBucket
      (sha2 (submissionKey item.formTemplateId item.uuid)) = false)
    (hd : findSubmissionByUuid db.submissions item.uuid = none) :
    runItemTx env item db s3 = TxOutcome.ok (commitDB env item db)
      (putObject s3 submissionsBucket (submissionKey item.formTemplateId item.uuid))
      db.nextSubmissionId := by
  unfold runItemTx
  simp only [hf, hk, hd]
  simp [commitDB, subRowOf, completedQueueRow]

/-- Conversely, a committed per-item transaction always has the `commitDB`
shape, a fresh client identifier, and a fresh object key. -/
theorem runItemTx_ok_shape {env : SyncEnv} {item : SubItem} {db db' : DB}
    {s3 s3' : S3State} {sid : Nat}
    (h : runItemTx env item db s3 = TxOutcome.ok db' s3' sid) :
    db' = commitDB env item db
    ∧ s3' = putObject s3 submissionsBucket (submissionKey item.formTemplateId item.uuid)
    ∧ sid = db.nextSubmissionId
    ∧ findSubmissionByUuid db.submissions item.uuid = none
    ∧ s3KeyRegistered db.s3Objects submissionsBucket
        (sha2 (submissionKey item.formTemplateId item.uuid)) = false := by
  cases hf : env.fault item with
  | some s =>
      cases hk : s3KeyRegistered db.s3Objects submissionsBucket
          (sha2 (submissionKey item.formTemplateId item.uuid)) <;>
        cases hd : findSubmissionByUuid db.submissions item.uuid <;>
        cases s <;> simp only [runItemTx, hf, hk, hd] at h <;> simp at h
  | none =>
      cases hk : s3KeyRegistered db.s3Objects submissionsBucket
          (sha2 (submissionKey item.formTemplateId item.uuid)) with
      | true => simp only [runItemTx, hf, hk] at h; simp at h
      | false =>
          cases hd : findSubmissionByUuid db.submissions item.uuid with
          | some r => simp only [runItemTx, hf, hk, hd] at h; simp at h
          | none =>
              simp only [runItemTx, hf, hk, hd] at h
              simp only [reduceCtorEq, if_false, Option.isSome_none, Bool.false_eq_true,
                if_true, ite_false, ite_true, TxOutcome.ok.injEq] at h
              obtain ⟨h1, h2, h3⟩ := h
              subst h1; subst h2; subst h3
              exact ⟨by simp [commitDB, subRowOf, completedQueueRow], rfl, rfl, rfl, rfl⟩

/-- An injected fault at any step makes the per-item transaction fail. -/
theorem runItemTx_fault_fail {env : SyncEnv} {item : SubItem} {db : DB} {s3 : S3State}
    {s : TxStep} (hf : env.fault item = some s) :
    ∃ msg s3', runItemTx env item db s3 = TxOutcome.fail msg s3' := by
  cases hk : s3KeyRegistered db.s3Objects submissionsBucket
      (sha2 (submissionKey item.formTemplateId item.uuid)) <;>
    cases hd : findSubmissionByUuid db.submissions item.uuid <;>
    cases s <;> simp [runItemTx, hf, hk, hd]

/-- Duplicate check positive: the item is skipped with the existing id and
the state is untouched. -/
theorem processOne_skipped {env : SyncEnv} {st : SyncState} {item : SubItem}
    {r : SubmissionRow} (h : findSubmissionByUuid st.db.submissions item.uuid = some r) :
    processOne env st item =
      (st, ⟨item.uuid, "skipped", "Submission with this UUID already exists",
        some r.id⟩) := by
  simp [processOne, h]

/-- Unknown template: per-item error, no transaction, untouched state. -/
theorem processOne_noTemplate {env : SyncEnv} {st : SyncState} {item : SubItem}
    (hd : findSubmissionByUuid st.db.submissions item.uuid = none)
    (ht : templateLookup st.db.formTemplates item.formTemplateId = none) :
    processOne env st item = (st, ⟨item.uuid, "error", "Form template not found", none⟩) := by
  simp [processOne, hd, ht]

/-- Unknown (template, version) pair: per-item error, no transaction,
untouched state. -/
theorem processOne_noVersion {env : SyncEnv} {st : SyncState} {item : SubItem} {pid : Nat}
    (hd : findSubmissionByUuid st.db.submissions item.uuid = none)
    (ht : templateLookup st.db.formTemplates item.formTemplateId = some pid)
    (hv : versionExists st.db.formTemplateVersions item.formTemplateId
      item.formTemplateVersion = false) :
    processOne env st item =
      (st, ⟨item.uuid, "error", "Form template version not found", none⟩) := by
  simp [processOne, hd, ht, hv]

/-- Fault-free valid item: the item commits with the `commitDB` effect and a
`success` result carrying the fresh server id. -/
theorem processOne_ok {env : SyncEnv} {st : SyncState} {item : SubItem} {pid : Nat}
    (hd : findSubmissionByUuid st.db.submissions item.uuid = none)
    (ht : templateLookup st.db.formTemplates item.formTemplateId = some pid)
    (hv : versionExists st.db.formTemplateVersions item.formTemplateId
      item.formTemplateVersion = true)
    (hf : env.fault item = none)
    (hk : s3KeyRegistered st.db.s3Objects submissionsBucket
      (sha2 (submissionKey item.formTemplateId item.uuid)) = false) :
    processOne env st item =
      (⟨commitDB env item st.db,
        putObject st.s3 submissionsBucket (submissionKey item.formTemplateId item.uuid)⟩,
       ⟨item.uuid, "success", "Submission synced successfully",
        some st.db.nextSubmissionId⟩) := by
  simp [processOne, hd, ht, hv, runItemTx_eq_ok env item st.db st.s3 hf hk hd]

/-- Faulted valid item: the relational state is rolled back, only the
`failed` sync_queue row (inserted through the pool) is added, and the result
is an error carrying the message. -/
theorem processOne_fault {env : SyncEnv} {st : SyncState} {item : SubItem} {pid : Nat}
    {s : TxStep}
    (hd : findSubmissionByUuid st.db.submissions item.uuid = none)
    (ht : templateLookup st.db.formTemplates item.formTemplateId = some pid)
    (hv : versionExists st.db.formTemplateVersions item.formTemplateId
      item.formTemplateVersion = true)
    (hf : env.fault item = some s) :
    ∃ msg s3',
      processOne env st item =
        (⟨{ st.db with
            syncQueue := st.db.syncQueue ++ [failedQueueRow env st.db item msg],
            nextSyncId := st.db.nextSyncId + 1 }, s3'⟩,
         ⟨item.uuid, "error", "Error: " ++ msg, none⟩) := by
  obtain ⟨msg, s3', hr⟩ := @runItemTx_fault_fail env item st.db st.s3 s hf
  exact ⟨msg, s3', by simp [processOne, hd, ht, hv, hr]⟩

/-- A negative uuid lookup means no row of the table carries that uuid. -/
theorem findSubmissionByUuid_eq_none {l : List SubmissionRow} {u : String}
    (h : findSubmissionByUuid l u = none) : ∀ r ∈ l, ¬ r.uuid = u := by
  induction l with
  | nil => intro r hr; cases hr
  | cons x xs ih =>
      intro r hr
      unfold findSubmissionByUuid at h
      by_cases hx : x.uuid = u
      · rw [if_pos hx] at h; cases h
      · rw [if_neg hx] at h
        cases hr with
        | head => exact hx
        | tail _ hm => exact ih h r hm

/-- Appending a row with the sought uuid to a table without it makes the
lookup find exactly that row. -/
theorem findSubmissionByUuid_append_none {l : List SubmissionRow} {u : String}
    {r : SubmissionRow} (h : findSubmissionByUuid l u = none) (hr : r.uuid = u) :
    findSubmissionByUuid (l ++ [r]) u = some r := by
  induction l with
  | nil => simp [findSubmissionByUuid, hr]
  | cons x xs ih =>
      simp only [List.cons_append, findSubmissionByUuid] at h ⊢
      by_cases hx : x.uuid = u
      · rw [if_pos hx] at h; cases h
      · rw [if_neg hx] at h ⊢
        exact ih h

/-- Every outcome of one item's processing answers for that item's uuid. -/
theorem processOne_uuid (env : SyncEnv) (st : SyncState) (item : SubItem) :
    (processOne env st item).2.uuid = item.uuid := by
  unfold processOne
  repeat' split
  all_goals rfl

/-- One item's processing never removes a committed submission row: the table
only ever grows at the end. -/
theorem processOne_submissions_extend (env : SyncEnv) (st : SyncState) (item : SubItem) :
    ∃ tail, (processOne env st item).1.db.submissions = st.db.submissions ++ tail := by
  cases hd : findSubmissionByUuid st.db.submissions item.uuid with
  | some r => exact ⟨[], by simp [processOne_skipped hd]⟩
  | none =>
      cases ht : templateLookup st.db.formTemplates item.formTemplateId with
      | none => exact ⟨[], by simp [processOne_noTemplate hd ht]⟩
      | some pid =>
          cases hv : versionExists st.db.formTemplateVersions item.formTemplateId
              item.formTemplateVersion with
          | false => exact ⟨[], by simp [processOne_noVersion hd ht hv]⟩
          | true =>
              cases hrun : runItemTx env item st.db st.s3 with
              | ok db' s3' sid =>
                  obtain ⟨hdb, -, -, -, -⟩ := runItemTx_ok_shape hrun
                  refine ⟨[subRowOf env item st.db], ?_⟩
                  simp [processOne, hd, ht, hv, hrun, hdb, commitDB]
              | fail msg s3' =>
                  exact ⟨[], by simp [processOne, hd, ht, hv, hrun]⟩

/-- The batch loop emits one result per item, in input order. -/
theorem processBatch_results_uuid (env : SyncEnv) (items : List SubItem) :
    ∀ st, (processBatch env st items).2.1.map ItemResult.uuid = items.map SubItem.uuid := by
  induction items with
  | nil => intro st; rfl
  | cons item rest ih =>
      intro st
      simp [processBatch, processOne_uuid, ih (processOne env st item).1]

/-- The batch loop never removes a committed submission row. -/
theorem processBatch_submissions_extend (env : SyncEnv) (items : List SubItem) :
    ∀ st, ∃ tail,
      (processBatch env st items).1.db.submissions = st.db.submissions ++ tail := by
  induction items with
  | nil => intro st; exact ⟨[], by simp [processBatch]⟩
  | cons item rest ih =>
      intro st
      obtain ⟨t1, h1⟩ := processOne_submissions_extend env st item
      obtain ⟨t2, h2⟩ := ih (processOne env st item).1
      exact ⟨t1 ++ t2, by simp [processBatch, h2, h1]⟩

/-! ## Helper lemmas about the sorted queue listings -/

theorem insertDesc_perm {α : Type} (key : α → Nat) (x : α) (l : List α) :
    List.Perm (insertDesc key x l) (x :: l) := by
  induction l with
  | nil => exact List.Perm.refl _
  | cons y ys ih =>
      unfold insertDesc
      split
      · exact List.Perm.refl _
      · exact (ih.cons y).trans (List.Perm.swap x y ys)

theorem sortDesc_perm {α : Type} (key : α → Nat) (l : List α) :
    List.Perm (sortDesc key l) l := by
  induction l with
  | nil => exact List.Perm.refl _
  | cons x xs ih => exact (insertDesc_perm key x (sortDesc key xs)).trans (ih.cons x)

theorem insertDesc_pairwise {α : Type} (key : α → Nat) (x : α) {l : List α}
    (h : l.Pairwise (fun a b => key b ≤ key a)) :
    (insertDesc key x l).Pairwise (fun a b => key b ≤ key a) := by
  induction l with
  | nil => simp [insertDesc]
  | cons y ys ih =>
      rw [List.pairwise_cons] at h
      obtain ⟨hy, hys⟩ := h
      unfold insertDesc
      split
      · rename_i hlt
        refine List.pairwise_cons.mpr ⟨?_, List.pairwise_cons.mpr ⟨hy, hys⟩⟩
        intro z hz
        rcases List.mem_cons.mp hz with rfl | hz'
        · exact Nat.le_of_lt hlt
        · exact le_trans (hy z hz') (Nat.le_of_lt hlt)
      · rename_i hnlt
        have hxy : key x ≤ key y := Nat.le_of_not_lt hnlt
        refine List.pairwise_cons.mpr ⟨?_, ih hys⟩
        intro z hz
        rcases List.mem_cons.mp ((insertDesc_perm key x ys).mem_iff.mp hz) with rfl | hz'
        · exact hxy
        · exact hy z hz'

theorem sortDesc_pairwise {α : Type} (key : α → Nat) (l : List α) :
    (sortDesc key l).Pairwise (fun a b => key b ≤ key a) := by
  induction l with
  | nil => simp [sortDesc]
  | cons x xs ih => exact insertDesc_pairwise key x ih

/-! ## Helper lemma about the store's multipart sessions -/

/-- After the store releases a multipart handle, no session with that handle
can be found any more. -/
theorem findUpload_abort (us : List UploadSession) (b k uid : String) :
    findUpload (us.filter (fun v => !sessionMatches v b k uid)) b k uid = none := by
  induction us with
  | nil => rfl
  | cons u us ih =>
      rw [List.filter_cons]
      cases hm : sessionMatches u b k uid with
      | true => simpa [hm] using ih
      | false => simpa [findUpload, hm] using ih

/-! ## C1 — idempotency of batch sync -/

/-- C1: Idempotency of batch sync.  An item whose uuid already has a
Submission row performs no writes and is answered `skipped` with the existing
server id; and after a `success`, exactly one Submission row with that uuid
exists and re-processing the same item (within the batch or in a later one)
leaves the state unchanged and answers `skipped` with the same serverId. -/
theorem sync_idempotency (env : SyncEnv) (st : SyncState) (item : SubItem) :
    (∀ r, findSubmissionByUuid st.db.submissions item.uuid = some r →
      processOne env st item =
        (st, ⟨item.uuid, "skipped", "Submission with this UUID already exists",
          some r.id⟩))
    ∧ (∀ st' res, processOne env st item = (st', res) → res.status = "success" →
        st'.db.submissions.countP (fun q => decide (q.uuid = item.uuid)) = 1
        ∧ processOne env st' item =
            (st', ⟨item.uuid, "skipped", "Submission with this UUID already exists",
              res.serverId⟩)) := by
  constructor
  · intro r h; exact processOne_skipped h
  · intro st' res h hs
    cases hd : findSubmissionByUuid st.db.submissions item.uuid with
    | some r =>
        rw [processOne_skipped hd] at h
        cases h
        simp at hs
    | none =>
        cases ht : templateLookup st.db.formTemplates item.formTemplateId with
        | none =>
            rw [processOne_noTemplate hd ht] at h
            cases h
            simp at hs
        | some pid =>
            cases hv : versionExists st.db.formTemplateVersions item.formTemplateId
                item.formTemplateVersion with
            | false =>
                rw [processOne_noVersion hd ht hv] at h
                cases h
                simp at hs
            | true =>
                cases hrun : runItemTx env item st.db st.s3 with
                | fail msg s3' =>
                    have hpo : processOne env st item =
                        (⟨{ st.db with
                            syncQueue := st.db.syncQueue ++ [failedQueueRow env st.db item msg],
                            nextSyncId := st.db.nextSyncId + 1 }, s3'⟩,
                         ⟨item.uuid, "error", "Error: " ++ msg, none⟩) := by
                      simp [processOne, hd, ht, hv, hrun]
                    rw [hpo] at h
                    cases h
                    simp at hs
                | ok db' s3' sid =>
                    obtain ⟨hdb, hs3, hsid, -, -⟩ := runItemTx_ok_shape hrun
                    have hpo : processOne env st item =
                        (⟨db', s3'⟩, ⟨item.uuid, "success",
                          "Submission synced successfully", some sid⟩) := by
                      simp [processOne, hd, ht, hv, hrun]
                    rw [hpo] at h
                    cases h
                    subst hdb
                    constructor
                    · show (commitDB env item st.db).submissions.countP _ = 1
                      simp only [commitDB]
                      rw [List.countP_append]
                      have h0 : st.db.submissions.countP
                          (fun q => decide (q.uuid = item.uuid)) = 0 := by
                        rw [List.countP_eq_zero]
                        intro a ha
                        simpa using findSubmissionByUuid_eq_none hd a ha
                      rw [h0]
                      simp [subRowOf]
                    · have hfind : findSubmissionByUuid
                          (commitDB env item st.db).submissions item.uuid
                          = some (subRowOf env item st.db) := by
                        simp only [commitDB]
                        exact findSubmissionByUuid_append_none hd rfl
                      rw [processOne_skipped hfind]
                      simp [subRowOf, hsid]

/-- Witness for C1: after syncing `itemA` into the empty database, exactly
one Submission row carries its uuid. -/
theorem sync_idempotency_witness :
    (processOne env0 st0 itemA).1.db.submissions.countP
      (fun q => decide (q.uuid = itemA.uuid)) = 1 :=
  ((sync_idempotency env0 st0 itemA).2 (processOne env0 st0 itemA).1
    (processOne env0 st0 itemA).2 rfl (by decide)).1

/-! ## C2 — per-item atomicity on failure -/

/-- C2: Per-item atomicity.  If the infrastructure fails any step of the
per-item transaction (S3 put, Object Record insert, Submission insert,
attachment insert, audit-log insert, completed-queue insert — or the commit
itself), the item's relational writes are all rolled back (the submissions,
s3_objects, submission-files and activity-log tables are exactly the
pre-item snapshot), one `failed` Sync Queue Entry carrying the error message
is inserted outside the rolled-back transaction, and the item's result is
`error`. -/
theorem sync_item_atomicity (env : SyncEnv) (st : SyncState) (item : SubItem)
    (pid : Nat) (s : TxStep)
    (hd : findSubmissionByUuid st.db.submissions item.uuid = none)
    (ht : templateLookup st.db.formTemplates item.formTemplateId = some pid)
    (hv : versionExists st.db.formTemplateVersions item.formTemplateId
      item.formTemplateVersion = true)
    (hf : env.fault item = some s) :
    ∃ msg s3',
      processOne env st item =
        (⟨{ st.db with
            syncQueue := st.db.syncQueue ++ [failedQueueRow env st.db item msg],
            nextSyncId := st.db.nextSyncId + 1 }, s3'⟩,
         ⟨item.uuid, "error", "Error: " ++ msg, none⟩)
      ∧ (failedQueueRow env st.db item msg).status = "failed"
      ∧ (failedQueueRow env st.db item msg).errorMessage = some msg := by
  obtain ⟨msg, s3', hpo⟩ := processOne_fault hd ht hv hf
  exact ⟨msg, s3', hpo, rfl, rfl⟩

/-- Witness for C2: forcing the audit-log insert of `itemA` to fail. -/
theorem sync_item_atomicity_witness :
    ∃ msg s3',
      processOne envLogFault st0 itemA =
        (⟨{ st0.db with
            syncQueue := st0.db.syncQueue ++ [failedQueueRow envLogFault st0.db itemA msg],
            nextSyncId := st0.db.nextSyncId + 1 }, s3'⟩,
         ⟨itemA.uuid, "error", "Error: " ++ msg, none⟩)
      ∧ (failedQueueRow envLogFault st0.db itemA msg).status = "failed"
      ∧ (failedQueueRow envLogFault st0.db itemA msg).errorMessage = some msg :=
  sync_item_atomicity envLogFault st0 itemA 1 TxStep.logInsert (by decide) (by decide)
    (by decide) rfl

/-! ## C4 — `createSubmission` cannot reach its transaction -/

/-- C4: the code is broken.  For a fully valid request (template 5 version 1
exist, the caller holds `create_project`), `createSubmission` raises its
unresolved `executeTransaction` reference, persists nothing, and returns no
identifiers, contradicting the claimed single-item ingestion contract. -/
theorem createSubmission_unreachable_transaction :
    createSubmission envCreate st0 reqCreate
      = (st0, CreateOutcome.runtimeError "executeTransaction is not defined") := by
  decide

/-! ## C5 — isolation across batch items -/

/-- C5: Isolation across items.  Every input item yields exactly one result
entry, in input order; committed submissions of earlier items are never
removed by later items (the table only grows); and the concrete 3-item batch
whose middle item references a nonexistent template version yields synced 2,
errors 1, with items 1 and 3 fully committed. -/
theorem sync_batch_isolation :
    (∀ env st (items : List SubItem),
      (syncSubmissions env st items).2.results.map ItemResult.uuid
        = items.map SubItem.uuid)
    ∧ (∀ env st (items : List SubItem), ∃ tail,
        (syncSubmissions env st items).1.db.submissions = st.db.submissions ++ tail)
    ∧ (syncSubmissions env0 st0 [itemA, itemBadVersion, itemDraft]).2.synced = 2
    ∧ (syncSubmissions env0 st0 [itemA, itemBadVersion, itemDraft]).2.errors = 1
    ∧ (syncSubmissions env0 st0 [itemA, itemBadVersion, itemDraft]).2.results.map
        ItemResult.status = ["success", "error", "success"]
    ∧ (syncSubmissions env0 st0 [itemA, itemBadVersion, itemDraft]).1.db.submissions.map
        SubmissionRow.uuid = ["a1", "a3"] := by
  refine ⟨?_, ?_, by decide, by decide, by decide, by decide⟩
  · intro env st items
    cases items with
    | nil => rfl
    | cons i rest =>
        simpa [syncSubmissions] using
          processBatch_results_uuid env (i :: rest)
            ⟨{ st.db with
              users := updateUserSync st.db.users env.userId env.deviceId env.now },
             st.s3⟩
  · intro env st items
    cases items with
    | nil => exact ⟨[], by simp [syncSubmissions]⟩
    | cons i rest =>
        obtain ⟨tail, h⟩ := processBatch_submissions_extend env (i :: rest)
          ⟨{ st.db with
            users := updateUserSync st.db.users env.userId env.deviceId env.now },
           st.s3⟩
        exact ⟨tail, by simpa [syncSubmissions] using h⟩

/-! ## C6 — placement of the Sync Queue Entry -/

/-- C6 counterexample: the `completed` entry is written inside the item's
transaction, not outside it.  For `itemA` against `st0`: fault-free
processing leaves exactly the completed entry; with the infrastructure
failing only the commit — i.e. strictly after the completed-entry insert of
step f — no completed entry survives, only the `failed` record inserted
through the pool; and a validation-failing attempt writes no queue entry at
all.  This refutes both "exactly one entry per ingestion attempt" and
"stored outside the Submission's own transaction boundary, so it survives
independently of whether the attempt's transaction commits or rolls back". -/
theorem completed_entry_not_outside_tx_counterexample :
    (processOne env0 st0 itemA).1.db.syncQueue.map SyncRow.status = ["completed"]
    ∧ (processOne envCommitFault st0 itemA).1.db.syncQueue.map SyncRow.status = ["failed"]
    ∧ (processOne envCommitFault st0 itemA).2.status = "error"
    ∧ (processOne env0 st0 itemBadVersion).1.db.syncQueue = [] := by
  exact ⟨by decide, by decide, by decide, by decide⟩

/-- C6 amended: attempts rejected at the duplicate check or the referential
validation write no Sync Queue Entry; an attempt whose transaction commits
appends exactly one `completed` entry, written inside that transaction; an
attempt whose transaction fails appends exactly one `failed` entry, written
outside the rolled-back transaction. -/
theorem syncQueue_entry_placement (env : SyncEnv) (st : SyncState) (item : SubItem) :
    (∀ r, findSubmissionByUuid st.db.submissions item.uuid = some r →
      (processOne env st item).1.db.syncQueue = st.db.syncQueue)
    ∧ (findSubmissionByUuid st.db.submissions item.uuid = none →
        templateLookup st.db.formTemplates item.formTemplateId = none →
        (processOne env st item).1.db.syncQueue = st.db.syncQueue)
    ∧ (∀ pid, findSubmissionByUuid st.db.submissions item.uuid = none →
        templateLookup st.db.formTemplates item.formTemplateId = some pid →
        versionExists st.db.formTemplateVersions item.formTemplateId
          item.formTemplateVersion = false →
        (processOne env st item).1.db.syncQueue = st.db.syncQueue)
    ∧ (∀ pid, findSubmissionByUuid st.db.submissions item.uuid = none →
        templateLookup st.db.formTemplates item.formTemplateId = some pid →
        versionExists st.db.formTemplateVersions item.formTemplateId
          item.formTemplateVersion = true →
        env.fault item = none →
        s3KeyRegistered st.db.s3Objects submissionsBucket
          (sha2 (submissionKey item.formTemplateId item.uuid)) = false →
        (processOne env st item).1.db.syncQueue
          = st.db.syncQueue ++ [completedQueueRow env item st.db])
    ∧ (∀ pid s, findSubmissionByUuid st.db.submissions item.uuid = none →
        templateLookup st.db.formTemplates item.formTemplateId = some pid →
        versionExists st.db.formTemplateVersions item.formTemplateId
          item.formTemplateVersion = true →
        env.fault item = some s →
        ∃ msg, (processOne env st item).1.db.syncQueue
          = st.db.syncQueue ++ [failedQueueRow env st.db item msg]) := by
  refine ⟨?_, ?_, ?_, ?_, ?_⟩
  · intro r hd; rw [processOne_skipped hd]
  · intro hd ht; rw [processOne_noTemplate hd ht]
  · intro pid hd ht hv; rw [processOne_noVersion hd ht hv]
  · intro pid hd ht hv hf hk
    rw [processOne_ok hd ht hv hf hk]
    simp [commitDB]
  · intro pid s hd ht hv hf
    obtain ⟨msg, s3', hpo⟩ := processOne_fault hd ht hv hf
    exact ⟨msg, by rw [hpo]⟩

/-- Witness for the amended C6 at the fault-free `itemA` run. -/
theorem syncQueue_entry_placement_witness :
    (processOne env0 st0 itemA).1.db.syncQueue
      = st0.db.syncQueue ++ [completedQueueRow env0 itemA st0.db] :=
  (syncQueue_entry_placement env0 st0 itemA).2.2.2.1 1 (by decide) (by decide)
    (by decide) rfl (by decide)

/-! ## C7 — Object Record upsert vs. the ingestion engine's plain insert -/

/-- C7 counterexample: when the (bucket, key-hash) of the payload key derived
for `itemA` is already in the ledger, the ingestion engine does not upsert:
the item errors, no identifier is returned, and the pre-existing row is left
exactly as it was (no metadata update). -/
theorem ingestion_plain_insert_counterexample :
    (processOne env0 stPre itemA).2.status = "error"
    ∧ (processOne env0 stPre itemA).2.serverId = none
    ∧ (processOne env0 stPre itemA).1.db.s3Objects = [preRegisteredRow] := by
  exact ⟨by decide, by decide, by decide⟩

/-- C7 amended: the upsert invariant holds in the file-upload registration
path — re-registering an existing (bucket, key-hash) updates the row's
metadata in place and answers with the existing identifier, adding no row —
while the ingestion engine's `s3_objects` step is a plain insert: an already
registered key makes the item error with the ledger untouched. -/
theorem objectRecord_upsert_amended :
    (∀ userId (db : DB) (s3 : S3State) (req : CompleteFileReq) r,
      ¬ req.objectKey = "" → ¬ req.bucket = "" →
      (req.bucket, req.objectKey) ∈ s3.objects →
      findS3ObjectByKey db.s3Objects req.bucket (sha2 req.objectKey) = some r →
      (completeFileUpload userId db s3 req).2 = Except.ok r.id
      ∧ (completeFileUpload userId db s3 req).1.s3Objects
          = db.s3Objects.map (fun q =>
              if q.bucketName = req.bucket ∧ q.objectKeyHash = sha2 req.objectKey then
                { q with contentType := req.contentType, sizeBytes := req.fileSize, createdBy := userId }
              else q)
      ∧ (completeFileUpload userId db s3 req).1.s3Objects.length
          = db.s3Objects.length)
    ∧ (∀ env st (item : SubItem) pid,
        findSubmissionByUuid st.db.submissions item.uuid = none →
        templateLookup st.db.formTemplates item.formTemplateId = some pid →
        versionExists st.db.formTemplateVersions item.formTemplateId
          item.formTemplateVersion = true →
        s3KeyRegistered st.db.s3Objects submissionsBucket
          (sha2 (submissionKey item.formTemplateId item.uuid)) = true →
        (processOne env st item).2.status = "error"
        ∧ (processOne env st item).1.db.s3Objects = st.db.s3Objects) := by
  constructor
  · intro userId db s3 req r hko hkb hmem hfind
    refine ⟨?_, ?_, ?_⟩ <;>
      simp [completeFileUpload, hko, hkb, hmem, upsertS3ObjectBasic, hfind]
  · intro env st item pid hd ht hv hk
    cases hf : env.fault item with
    | some s =>
        obtain ⟨msg, s3', hpo⟩ := processOne_fault hd ht hv hf
        rw [hpo]
        exact ⟨rfl, rfl⟩
    | none =>
        have hrun : runItemTx env item st.db st.s3 =
            TxOutcome.fail "ER_DUP_ENTRY s3_objects bucket_name, object_key_hash"
              (putObject st.s3 submissionsBucket
                (submissionKey item.formTemplateId item.uuid)) := by
          unfold runItemTx
          simp only [hf, hk]
          simp
        have hpo : processOne env st item =
            (⟨{ st.db with
                syncQueue := st.db.syncQueue ++ [failedQueueRow env st.db item
                  "ER_DUP_ENTRY s3_objects bucket_name, object_key_hash"],
                nextSyncId := st.db.nextSyncId + 1 },
              putObject st.s3 submissionsBucket
                (submissionKey item.formTemplateId item.uuid)⟩,
             ⟨item.uuid, "error",
              "Error: " ++ "ER_DUP_ENTRY s3_objects bucket_name, object_key_hash",
              none⟩) := by
          simp [processOne, hd, ht, hv, hrun]
        rw [hpo]
        exact ⟨rfl, rfl⟩

/-- Witness for the amended C7: the duplicate file-upload registration of
("bkt", "key0") and the ingestion run over a pre-registered payload key. -/
theorem objectRecord_upsert_amended_witness :
    ((completeFileUpload 9 dbFile s3File fileReqDup).2 = Except.ok 3
      ∧ (completeFileUpload 9 dbFile s3File fileReqDup).1.s3Objects
          = dbFile.s3Objects.map (fun q =>
              if q.bucketName = fileReqDup.bucket ∧ q.objectKeyHash = sha2 fileReqDup.objectKey then
                { q with contentType := fileReqDup.contentType, sizeBytes := fileReqDup.fileSize, createdBy := 9 }
              else q)
      ∧ (completeFileUpload 9 dbFile s3File fileReqDup).1.s3Objects.length
          = dbFile.s3Objects.length)
    ∧ ((processOne env0 stPre itemA).2.status = "error"
      ∧ (processOne env0 stPre itemA).1.db.s3Objects = stPre.db.s3Objects) := by
  constructor
  · exact (objectRecord_upsert_amended).1 9 dbFile s3File fileReqDup
      ⟨3, "bkt", "key0", sha2 "key0", "image/png", 7, none, none, 2⟩
      (by decide) (by decide) (by decide) (by decide)
  · exact (objectRecord_upsert_amended).2 env0 stPre itemA 1 (by decide) (by decide)
      (by decide) (by decide)

/-! ## C8 — multipart ledger invariant -/

/-- A positive keyed lookup in the ledger means the key is registered. -/
theorem findS3ObjectByKey_registered {l : List S3ObjectRow} {b h : String}
    {r : S3ObjectRow} (hf : findS3ObjectByKey l b h = some r) :
    s3KeyRegistered l b h = true := by
  induction l with
  | nil => cases hf
  | cons x xs ih =>
      unfold findS3ObjectByKey at hf
      unfold s3KeyRegistered
      by_cases hx : x.bucketName = b ∧ x.objectKeyHash = h
      · rw [if_pos hx]
      · rw [if_neg hx] at hf
        rw [if_neg hx]
        exact ih hf

/-- A row-wise update that preserves bucket and key-hash preserves key
registration. -/
theorem s3KeyRegistered_map_metadata {l : List S3ObjectRow} {b h : String}
    (f : S3ObjectRow → S3ObjectRow)
    (hf : ∀ q, (f q).bucketName = q.bucketName ∧ (f q).objectKeyHash = q.objectKeyHash) :
    s3KeyRegistered (l.map f) b h = s3KeyRegistered l b h := by
  induction l with
  | nil => rfl
  | cons x xs ih =>
      simp only [List.map_cons, s3KeyRegistered]
      by_cases hx : x.bucketName = b ∧ x.objectKeyHash = h
      · rw [if_pos hx,
          if_pos (show (f x).bucketName = b ∧ (f x).objectKeyHash = h by
            rw [(hf x).1, (hf x).2]; exact hx)]
      · rw [if_neg hx,
          if_neg (show ¬((f x).bucketName = b ∧ (f x).objectKeyHash = h) by
            rw [(hf x).1, (hf x).2]; exact hx)]
        exact ih

/-- Appending a row with the sought (bucket, key-hash) registers the key. -/
theorem s3KeyRegistered_append_last {l : List S3ObjectRow} {b h : String}
    {r : S3ObjectRow} (hb : r.bucketName = b) (hh : r.objectKeyHash = h) :
    s3KeyRegistered (l ++ [r]) b h = true := by
  induction l with
  | nil => simp [s3KeyRegistered, hb, hh]
  | cons x xs ih =>
      rw [List.cons_append]
      unfold s3KeyRegistered
      by_cases hx : x.bucketName = b ∧ x.objectKeyHash = h
      · rw [if_pos hx]
      · rw [if_neg hx]
        exact ih

/-- C8: Multipart ledger invariant.  A completion whose part checksums the
store rejects fails with the store's error and leaves the ledger untouched;
so does a completion against an unknown handle; aborting never touches the
ledger; completing after aborting the same handle fails; and a completion
that returns success both found an open session with matching checksums and
left the final key registered in the ledger. -/
theorem multipart_ledger_invariant :
    (∀ userId (db : DB) (s3 : S3State) (req : MultipartCompleteReq) u,
      ¬ req.bucket = "" → ¬ req.key = "" → ¬ req.uploadId = "" → ¬ req.parts = [] →
      findUpload s3.uploads req.bucket req.key req.uploadId = some u →
      ¬ u.expectedParts = req.parts →
      (completeMultipartUpload userId db s3 req).2 = Except.error ("InvalidPart", 500)
      ∧ (completeMultipartUpload userId db s3 req).1.1 = db)
    ∧ (∀ userId (db : DB) (s3 : S3State) (req : MultipartCompleteReq),
      ¬ req.bucket = "" → ¬ req.key = "" → ¬ req.uploadId = "" → ¬ req.parts = [] →
      findUpload s3.uploads req.bucket req.key req.uploadId = none →
      (completeMultipartUpload userId db s3 req).2 = Except.error ("NoSuchUpload", 500)
      ∧ (completeMultipartUpload userId db s3 req).1.1 = db)
    ∧ (∀ (db : DB) (s3 : S3State) b k uid,
        (abortMultipartUpload db s3 b k uid).1.1 = db)
    ∧ (∀ userId (db : DB) (s3 : S3State) (req : MultipartCompleteReq),
      ¬ req.bucket = "" → ¬ req.key = "" → ¬ req.uploadId = "" → ¬ req.parts = [] →
      (completeMultipartUpload userId db
        (abortMultipartUpload db s3 req.bucket req.key req.uploadId).1.2 req).2
        = Except.error ("NoSuchUpload", 500))
    ∧ (∀ userId (db : DB) (s3 : S3State) (req : MultipartCompleteReq) fid,
      (completeMultipartUpload userId db s3 req).2 = Except.ok fid →
      s3KeyRegistered (completeMultipartUpload userId db s3 req).1.1.s3Objects
        req.bucket (sha2 req.key) = true
      ∧ ∃ u, findUpload s3.uploads req.bucket req.key req.uploadId = some u
          ∧ u.expectedParts = req.parts) := by
  refine ⟨?_, ?_, ?_, ?_, ?_⟩
  · intro userId db s3 req u hb hk huid hp hfind hparts
    constructor <;>
      simp [completeMultipartUpload, hb, hk, huid, hp, s3CompleteMultipart, hfind, hparts]
  · intro userId db s3 req hb hk huid hp hfind
    constructor <;>
      simp [completeMultipartUpload, hb, hk, huid, hp, s3CompleteMultipart, hfind]
  · intro db s3 b k uid
    unfold abortMultipartUpload
    split <;> rfl
  · intro userId db s3 req hb hk huid hp
    have habort : (abortMultipartUpload db s3 req.bucket req.key req.uploadId).1.2
        = s3AbortMultipart s3 req.bucket req.key req.uploadId := by
      unfold abortMultipartUpload
      rw [if_neg (by simp [hb, hk, huid])]
    rw [habort]
    have hnone : findUpload (s3AbortMultipart s3 req.bucket req.key req.uploadId).uploads
        req.bucket req.key req.uploadId = none := by
      unfold s3AbortMultipart
      exact findUpload_abort s3.uploads req.bucket req.key req.uploadId
    simp [completeMultipartUpload, hb, hk, huid, hp, s3CompleteMultipart, hnone]
  · intro userId db s3 req fid hok
    by_cases hpar : req.bucket = "" ∨ req.key = "" ∨ req.uploadId = "" ∨ req.parts = []
    · rw [completeMultipartUpload, if_pos hpar] at hok
      cases hok
    · rw [completeMultipartUpload, if_neg hpar] at hok
      cases hfind : findUpload s3.uploads req.bucket req.key req.uploadId with
      | none => simp only [s3CompleteMultipart, hfind] at hok; cases hok
      | some u =>
          by_cases hparts : u.expectedParts = req.parts
          · refine ⟨?_, u, rfl, hparts⟩
            have hcm : s3CompleteMultipart s3 req.bucket req.key req.uploadId req.parts
                = Except.ok
                  ({ objects := if (req.bucket, req.key) ∈ s3.objects then s3.objects
                                else s3.objects ++ [(req.bucket, req.key)],
                     uploads := s3.uploads.filter
                       (fun v => !sessionMatches v req.bucket req.key req.uploadId) },
                   "etag-" ++ req.uploadId) := by
              simp only [s3CompleteMultipart, hfind]
              rw [if_pos hparts]
            simp only [completeMultipartUpload, if_neg hpar, hcm]
            cases hreg : findS3ObjectByKey db.s3Objects req.bucket (sha2 req.key) with
            | some r =>
                simp only [upsertS3ObjectVersioned, hreg]
                rw [s3KeyRegistered_map_metadata _ (fun q => by
                  by_cases hq : q.bucketName = req.bucket ∧ q.objectKeyHash = sha2 req.key <;>
                    simp [hq])]
                exact findS3ObjectByKey_registered hreg
            | none =>
                simp only [upsertS3ObjectVersioned, hreg]
                exact s3KeyRegistered_append_last rfl rfl
          · simp only [s3CompleteMultipart, hfind] at hok
            rw [if_neg hparts] at hok
            cases hok

/-- Witness for C8: rejected part checksums against the open session, and
the successful completion registering the key. -/
theorem multipart_ledger_invariant_witness :
    ((completeMultipartUpload 9 db0 s3Upload mreqBadParts).2
        = Except.error ("InvalidPart", 500)
      ∧ (completeMultipartUpload 9 db0 s3Upload mreqBadParts).1.1 = db0)
    ∧ (s3KeyRegistered (completeMultipartUpload 9 db0 s3Upload mreqGood).1.1.s3Objects
        mreqGood.bucket (sha2 mreqGood.key) = true
      ∧ ∃ u, findUpload s3Upload.uploads mreqGood.bucket mreqGood.key mreqGood.uploadId
          = some u ∧ u.expectedParts = mreqGood.parts) := by
  constructor
  · exact (multipart_ledger_invariant).1 9 db0 s3Upload mreqBadParts session1
      (by decide) (by decide) (by decide) (by decide) (by decide) (by decide)
  · exact (multipart_ledger_invariant).2.2.2.2 9 db0 s3Upload mreqGood 1 rfl

/-! ## C9 — draft timestamp rule -/

/-- `createSubmission` never changes the state (its transaction helper
reference is unresolved, so every call errors before writing). -/
theorem createSubmission_state (env : CreateEnv) (st : SyncState) (req : CreateReq) :
    (createSubmission env st req).1 = st := by
  unfold createSubmission
  repeat' split
  all_goals rfl

/-- C9: Draft timestamp rule.  Every Submission row created by ingestion
(batch sync or the single-item endpoint) stores `submittedAt = null` exactly
when its status is `draft`, and the current time otherwise; rows already
present are untouched.  (The single-item endpoint creates no rows at all —
see C4 — so it satisfies the rule vacuously.) -/
theorem ingestion_draft_timestamp :
    (∀ env st (item : SubItem) r, r ∈ (processOne env st item).1.db.submissions →
      r ∈ st.db.submissions ∨
        r.submittedAt = (if r.status = "draft" then none else some env.now))
    ∧ (∀ env st (req : CreateReq) r, r ∈ (createSubmission env st req).1.db.submissions →
        r ∈ st.db.submissions) := by
  constructor
  · intro env st item r hr
    cases hd : findSubmissionByUuid st.db.submissions item.uuid with
    | some q => rw [processOne_skipped hd] at hr; exact Or.inl hr
    | none =>
        cases ht : templateLookup st.db.formTemplates item.formTemplateId with
        | none => rw [processOne_noTemplate hd ht] at hr; exact Or.inl hr
        | some pid =>
            cases hv : versionExists st.db.formTemplateVersions item.formTemplateId
                item.formTemplateVersion with
            | false => rw [processOne_noVersion hd ht hv] at hr; exact Or.inl hr
            | true =>
                cases hrun : runItemTx env item st.db st.s3 with
                | fail msg s3' =>
                    have hpo : (processOne env st item).1.db.submissions
                        = st.db.submissions := by
                      simp [processOne, hd, ht, hv, hrun]
                    rw [hpo] at hr
                    exact Or.inl hr
                | ok db' s3' sid =>
                    obtain ⟨hdb, -, -, -, -⟩ := runItemTx_ok_shape hrun
                    have hpo : (processOne env st item).1.db.submissions
                        = st.db.submissions ++ [subRowOf env item st.db] := by
                      simp [processOne, hd, ht, hv, hrun, hdb, commitDB]
                    rw [hpo] at hr
                    rcases List.mem_append.mp hr with hin | hnew
                    · exact Or.inl hin
                    · right
                      rcases List.mem_singleton.mp hnew with rfl
                      by_cases hds : item.status = "draft" <;> simp [subRowOf, hds]
  · intro env st req r hr
    rw [createSubmission_state] at hr
    exact hr

/-- Witness for C9: the committed draft row of `itemDraft` stores a null
`submittedAt`. -/
theorem ingestion_draft_timestamp_witness :
    (subRowOf env0 itemDraft db0 ∈ (processOne env0 st0 itemDraft).1.db.submissions)
    ∧ (subRowOf env0 itemDraft db0 ∈ st0.db.submissions ∨
        (subRowOf env0 itemDraft db0).submittedAt
          = (if (subRowOf env0 itemDraft db0).status = "draft" then none
             else some env0.now)) :=
  ⟨by decide, (ingestion_draft_timestamp).1 env0 st0 itemDraft _ (by decide)⟩

/-! ## C10 — pending items reported by getSyncStatus -/

/-- C10: `getSyncStatus`'s pending list holds exactly the sync-queue rows of
the given user and device whose status is `pending` or `failed` — previously
failed attempts included — ordered by creation time, most recent first, with
no count cap; and the concrete queue `dbQueue` lists its failed and pending
rows newest-first. -/
theorem getSyncStatus_pending_complete (db : DB) (userId : Nat) (deviceId : String)
    (now : Nat) :
    (∀ r, r ∈ (getSyncStatus db userId deviceId now).pendingItems ↔
      (r ∈ db.syncQueue ∧ r.userId = userId ∧ r.deviceId = deviceId ∧
        (r.status = "pending" ∨ r.status = "failed")))
    ∧ (getSyncStatus db userId deviceId now).pendingItems.Pairwise
        (fun a b => b.createdAt ≤ a.createdAt)
    ∧ (getSyncStatus db userId deviceId now).pendingItems.length
        = (db.syncQueue.filter (fun r =>
            decide (r.userId = userId ∧ r.deviceId = deviceId ∧
              (r.status = "pending" ∨ r.status = "failed")))).length
    ∧ (getSyncStatus dbQueue 9 "dev" 50).pendingItems.map SyncRow.id = [2, 4, 1] := by
  have hpend : (getSyncStatus db userId deviceId now).pendingItems
      = sortDesc SyncRow.createdAt (db.syncQueue.filter (fun r =>
          decide (r.userId = userId ∧ r.deviceId = deviceId ∧
            (r.status = "pending" ∨ r.status = "failed")))) := rfl
  refine ⟨?_, ?_, ?_, by decide⟩
  · intro r
    rw [hpend, (sortDesc_perm _ _).mem_iff, List.mem_filter]
    simp
  · rw [hpend]
    exact sortDesc_pairwise _ _
  · rw [hpend]
    exact (sortDesc_perm _ _).length_eq

end FormsBackend
